import Mathlib

/-!
Verification of the Kubernetes job-tracker adapter
(`pkg/jobtracker/kubernetestracker/kubernetestracker.go`).

The adapter is a thin dispatch layer: every public method looks up a jobs
client from a Kubernetes clientset, issues at most one cluster call, and
translates the single error case.  The embedding below mirrors the Go file
directly.  Go values of type `error` become `Option String` (`none` is a nil
error, `some msg` an error whose `Error()` message is `msg`); Go pairs
`(value, error)` where the value is nil on failure become `Except String`.
External functions that live outside the reviewed file (the Kubernetes client
library and the shared helper package) are taken as parameters of the method
definitions, so every theorem quantifies over their behaviour.

Because the Go methods take a pointer receiver, each method of the embedding
also returns the receiver's fields after the call; the Go bodies contain no
assignment to those fields, which the translation records by returning the
receiver unchanged.  The two methods that issue cluster calls directly in the
reviewed file (`ListJobs`, `AddJob`) additionally return the trace of client
operations they issued, so statements about which calls reach the cluster can
be made exactly.
-/

/-- Modelled from the spec: the DRMAA2 lifecycle state enumeration of the
external `drmaa2interface` package ("one of a small enumerated set (e.g.,
Undetermined, Queued, Running, Done, Failed, Suspended) derived from backend
status"), together with the remaining standard DRMAA2 states. -/
inductive DrmaaJobState where
  | Undetermined
  | Queued
  | QueuedHeld
  | Running
  | Suspended
  | Requeued
  | RequeuedHeld
  | Done
  | Failed
  deriving DecidableEq, Repr, Inhabited

/-- Modelled from the spec: the DRMAA2 job template, "a caller-supplied
descriptor of work to execute, independent of backend".  The reviewed file
never inspects it — it is only handed to the external conversion helper — so
a single representative field suffices. -/
structure JobTemplate where
  RemoteCommand : String := ""
  deriving DecidableEq, Repr, Inhabited

/-- A Kubernetes batch/v1 Job object, restricted to the metadata the reviewed
file reads: its name (returned as the job id) and its labels. -/
structure K8sJob where
  Name : String
  Labels : List (String × String) := []
  deriving DecidableEq, Repr, Inhabited

/-- A Kubernetes JobList response: `jobsList.Items`. -/
structure JobList where
  Items : List K8sJob
  deriving DecidableEq, Repr, Inhabited

/-- `k8sapi.ListOptions`, restricted to the one field the reviewed file sets. -/
structure ListOptions where
  LabelSelector : String
  deriving DecidableEq, Repr, Inhabited

/-- The batch/v1 jobs client interface, restricted to the two operations the
reviewed file invokes on it directly.  Each operation is a response function:
what the cluster would answer to that request. -/
structure BatchV1JobInterface where
  list : ListOptions → Except String JobList
  create : K8sJob → Except String K8sJob

/-- Modelled from the spec: the cluster client handle (`*kubernetes.Clientset`).
The helper `getJobsClient` is defined outside the reviewed file; all the
reviewed file observes of it is whether it yields a jobs client or an error,
so the handle carries that outcome directly. -/
structure Clientset where
  jobsClientResult : Except String BatchV1JobInterface

/-- `getJobsClient(cs)`: extract the batch jobs client from a clientset, or
fail.  Defined outside the reviewed file; see `Clientset`. -/
def getJobsClient (cs : Clientset) : Except String BatchV1JobInterface :=
  cs.jobsClientResult

/-- The tracker: `type KubernetesTracker struct { clientSet *kubernetes.Clientset;
jobsession string }`. -/
structure KubernetesTracker where
  clientSet : Clientset
  jobsession : String

/-- One client operation issued by the reviewed file against the cluster:
acquiring the jobs client, a List request, or a Create request. -/
inductive ClusterOp where
  | getClient
  | list (opts : ListOptions)
  | create (job : K8sJob)
  deriving Repr

/-- Modelled from the spec: `drmaa2interface.JobInfo`, the "job-info record"
filled in by the external helper `JobToJobInfo`; the reviewed file only passes
it through, so a representative pair of fields suffices.  The Go zero value
`JobInfo{}` is the default value. -/
structure JobInfo where
  ID : String := ""
  State : DrmaaJobState := DrmaaJobState.Undetermined
  deriving DecidableEq, Repr, Inhabited

/-- `time.Duration` (a signed 64-bit count of nanoseconds); the reviewed file
only passes it through, so the overflow behaviour is irrelevant and a plain
integer suffices. -/
abbrev Duration := Int

/-- `ListJobCategories` returns `[]string{}, nil` unconditionally. -/
def KubernetesTracker.ListJobCategories (kt : KubernetesTracker) :
    (List String × Option String) × KubernetesTracker :=
  (([], none), kt)

/-- `ListJobs`: acquire the jobs client (wrapping an acquisition failure with
the operation name), list the cluster's jobs filtered by the label
selector `drmaa2jobsession=<session>`, and return the item names in order.
Returns the Go return values, the trace of issued client operations, and the
receiver. -/
def KubernetesTracker.ListJobs (kt : KubernetesTracker) :
    (Option (List String) × Option String) × List ClusterOp × KubernetesTracker :=
  match getJobsClient kt.clientSet with
  | Except.error err =>
      ((none, some ("ListJobs: " ++ err)), [ClusterOp.getClient], kt)
  | Except.ok jc =>
      match jc.list { LabelSelector := "drmaa2jobsession=" ++ kt.jobsession } with
      | Except.error err =>
          ((none, some ("listing jobs with client: " ++ err)),
            [ClusterOp.getClient,
              ClusterOp.list { LabelSelector := "drmaa2jobsession=" ++ kt.jobsession }], kt)
      | Except.ok jobsList =>
          ((some (jobsList.Items.map (fun job => job.Name)), none),
            [ClusterOp.getClient,
              ClusterOp.list { LabelSelector := "drmaa2jobsession=" ++ kt.jobsession }], kt)

/-- `AddJob`: convert the template (with the session name) into a batch job via
the external `convertJob`, acquire the jobs client, create the job in the
cluster, and return the created object's name.  Each of the three failure
points returns `""` together with a wrapped error.  `convertJob` is a parameter
because it is defined outside the reviewed file. -/
def KubernetesTracker.AddJob
    (convertJob : String → JobTemplate → Except String K8sJob)
    (kt : KubernetesTracker) (jt : JobTemplate) :
    (String × Option String) × List ClusterOp × KubernetesTracker :=
  match convertJob kt.jobsession jt with
  | Except.error err =>
      (("", some ("converting job template into a k8s job: " ++ err)), [], kt)
  | Except.ok job =>
      match getJobsClient kt.clientSet with
      | Except.error err =>
          (("", some ("get client: " ++ err)), [ClusterOp.getClient], kt)
      | Except.ok jc =>
          match jc.create job with
          | Except.error err =>
              (("", some ("creating new job: " ++ err)),
                [ClusterOp.getClient, ClusterOp.create job], kt)
          | Except.ok j =>
              ((j.Name, none), [ClusterOp.getClient, ClusterOp.create job], kt)

/-- `AddArrayJob(jt, begin, end, step, maxParallel)` is a pure delegation:
`return helper.AddArrayJobAsSingleJobs(jt, kt, begin, end, step)` — note that
`maxParallel` does not appear in the delegated call.  The shared helper is a
parameter because it is defined outside the reviewed file. -/
def KubernetesTracker.AddArrayJob
    (AddArrayJobAsSingleJobs :
      JobTemplate → KubernetesTracker → Int → Int → Int → String × Option String)
    (kt : KubernetesTracker) (jt : JobTemplate)
    (begin_ end_ step maxParallel : Int) :
    (String × Option String) × KubernetesTracker :=
  (AddArrayJobAsSingleJobs jt kt begin_ end_ step, kt)

/-- `ListArrayJobs(id)` is a pure delegation to `helper.ArrayJobID2GUIDs(id)`. -/
def KubernetesTracker.ListArrayJobs
    (ArrayJobID2GUIDs : String → Option (List String) × Option String)
    (kt : KubernetesTracker) (id : String) :
    (Option (List String) × Option String) × KubernetesTracker :=
  (ArrayJobID2GUIDs id, kt)

/-- `JobState(jobid)`: acquire the jobs client; on failure return
`drmaa2interface.Undetermined, "", nil` (the acquisition error is dropped);
on success return `DRMAA2State(jc, jobid), "", nil`.  The external state
mapping `DRMAA2State` (which returns a state and no error) is a parameter. -/
def KubernetesTracker.JobState
    (DRMAA2State : BatchV1JobInterface → String → DrmaaJobState)
    (kt : KubernetesTracker) (jobid : String) :
    (DrmaaJobState × String × Option String) × KubernetesTracker :=
  match getJobsClient kt.clientSet with
  | Except.error _ => ((DrmaaJobState.Undetermined, "", none), kt)
  | Except.ok jc => ((DRMAA2State jc jobid, "", none), kt)

/-- `JobInfo(jobid)`: acquire the jobs client, returning `JobInfo{}` with the
unwrapped error on failure, else delegate to the external `JobToJobInfo`. -/
def KubernetesTracker.JobInfo
    (JobToJobInfo : BatchV1JobInterface → String → JobInfo × Option String)
    (kt : KubernetesTracker) (jobid : String) :
    (JobInfo × Option String) × KubernetesTracker :=
  match getJobsClient kt.clientSet with
  | Except.error err => (({}, some err), kt)
  | Except.ok jc => (JobToJobInfo jc jobid, kt)

/-- `JobControl(jobid, state)`: look up the jobs client and the job object via
the external `getJobInterfaceAndJob` (wrapping its error with the operation
name), then delegate to the external `jobStateChange`. -/
def KubernetesTracker.JobControl
    (getJobInterfaceAndJob : Clientset → String → Except String (BatchV1JobInterface × K8sJob))
    (jobStateChange : BatchV1JobInterface → K8sJob → String → Option String)
    (kt : KubernetesTracker) (jobid state : String) :
    Option String × KubernetesTracker :=
  match getJobInterfaceAndJob kt.clientSet jobid with
  | Except.error err => (some ("JobControl: " ++ err), kt)
  | Except.ok (jc, job) => (jobStateChange jc job state, kt)

/-- `Wait(jobid, timeout, states...)` is a pure delegation to
`helper.WaitForState(kt, jobid, timeout, states...)`. -/
def KubernetesTracker.Wait
    (WaitForState :
      KubernetesTracker → String → Duration → List DrmaaJobState → Option String)
    (kt : KubernetesTracker) (jobid : String) (timeout : Duration)
    (states : List DrmaaJobState) :
    Option String × KubernetesTracker :=
  (WaitForState kt jobid timeout states, kt)

/-- `DeleteJob(jobid)`: look up the jobs client and job via the external
`getJobInterfaceAndJob` (wrapping its error with the operation name), then
delegate to the external `deleteJob`. -/
def KubernetesTracker.DeleteJob
    (getJobInterfaceAndJob : Clientset → String → Except String (BatchV1JobInterface × K8sJob))
    (deleteJob : BatchV1JobInterface → K8sJob → Option String)
    (kt : KubernetesTracker) (jobid : String) :
    Option String × KubernetesTracker :=
  match getJobInterfaceAndJob kt.clientSet jobid with
  | Except.error err => (some ("DeleteJob: " ++ err), kt)
  | Except.ok (jc, job) => (deleteJob jc job, kt)

/-- `type allocator struct{}`. -/
structure allocator where
  deriving Repr

/-- `NewAllocator()` returns a fresh allocator. -/
def NewAllocator : allocator := {}

/-- A Go value of static type `interface` passed as `jobTrackerInitParams`:
either the nil interface value, a `*kubernetes.Clientset` (whose pointer may
itself be nil — such a value is a non-nil interface value on which the type
assertion succeeds and yields the nil pointer), or a value of some other
dynamic type. -/
inductive InitParams where
  | nil
  | clientset (cs : Option Clientset)
  | other (tag : String)

/-- `true` exactly when the Go type assertion
`jobTrackerInitParams.(*kubernetes.Clientset)` would succeed, i.e. the dynamic
type of the value is `*kubernetes.Clientset`. -/
def InitParams.isClientsetType : InitParams → Bool
  | InitParams.clientset _ => true
  | _ => false

/-- `true` exactly when the interface value compares equal to nil in Go
(`jobTrackerInitParams != nil` is false). -/
def InitParams.isNil : InitParams → Bool
  | InitParams.nil => true
  | _ => false

/-- `New(jobsession, cs)`: if the clientset pointer is nil, build one with the
external `NewClientSet` (returning its error unchanged on failure); then return
a tracker holding the clientset and the session name.  `NewClientSet` is a
parameter standing for the outcome of ambient cluster-configuration loading,
which is defined outside the reviewed file. -/
def kubernetestracker.New (NewClientSet : Except String Clientset)
    (jobsession : String) (cs : Option Clientset) :
    Except String KubernetesTracker :=
  match cs with
  | none =>
      match NewClientSet with
      | Except.error err => Except.error err
      | Except.ok built => Except.ok { clientSet := built, jobsession := jobsession }
  | some given => Except.ok { clientSet := given, jobsession := jobsession }

/-- `allocator.New(jobSessionName, jobTrackerInitParams)`: start from a nil
`*kubernetes.Clientset`; if the init parameter is a non-nil interface value,
type-assert it (failing with the fixed type error if the assertion fails);
finally delegate to `New`. -/
def allocator.New (NewClientSet : Except String Clientset)
    (a : allocator) (jobSessionName : String)
    (jobTrackerInitParams : InitParams) :
    Except String KubernetesTracker :=
  match jobTrackerInitParams with
  | InitParams.nil => kubernetestracker.New NewClientSet jobSessionName none
  | InitParams.clientset cs => kubernetestracker.New NewClientSet jobSessionName cs
  | InitParams.other _ =>
      Except.error "jobTrackerInitParams is not of type *kubernetes.Clientset"

/-! Concrete environments used to instantiate the theorems below: a clientset
whose jobs client cannot be acquired, one whose client answers list and create
requests, and one whose client fails every request. -/

/-- A clientset on which `getJobsClient` fails. -/
def failingClientset : Clientset :=
  { jobsClientResult := Except.error "connection refused" }

/-- A jobs client that answers a List request filtered by the session label of
the session `sess` with two jobs, rejects any other selector, and echoes
Create requests back. -/
def sessJobsClient : BatchV1JobInterface where
  list := fun opts =>
    if opts.LabelSelector = "drmaa2jobsession=sess" then
      Except.ok { Items := [{ Name := "job-a" }, { Name := "job-b" }] }
    else
      Except.error "unexpected label selector"
  create := fun job => Except.ok job

/-- A jobs client whose every request fails. -/
def downJobsClient : BatchV1JobInterface where
  list := fun _ => Except.error "connection reset"
  create := fun _ => Except.error "connection reset"

/-- A clientset yielding `sessJobsClient`. -/
def okClientset : Clientset := { jobsClientResult := Except.ok sessJobsClient }

/-- A clientset yielding `downJobsClient`. -/
def downClientset : Clientset := { jobsClientResult := Except.ok downJobsClient }

/-- A tracker for session `sess` whose jobs client cannot be acquired. -/
def failTracker : KubernetesTracker :=
  { clientSet := failingClientset, jobsession := "sess" }

/-- A tracker for session `sess` with a working jobs client. -/
def okTracker : KubernetesTracker :=
  { clientSet := okClientset, jobsession := "sess" }

/-- A tracker for session `sess` whose jobs client fails every request. -/
def downTracker : KubernetesTracker :=
  { clientSet := downClientset, jobsession := "sess" }

/-- A conversion helper that succeeds, naming the workload after the command
and attaching the session label. -/
def convertOk : String → JobTemplate → Except String K8sJob :=
  fun session jt =>
    Except.ok { Name := jt.RemoteCommand ++ "-job"
                Labels := [("drmaa2jobsession", session)] }

/-- A conversion helper that always fails. -/
def convertFail : String → JobTemplate → Except String K8sJob :=
  fun _ _ => Except.error "no command specified"

/-- A state-mapping function reporting every job as Running. -/
def anyState : BatchV1JobInterface → String → DrmaaJobState :=
  fun _ _ => DrmaaJobState.Running

/-- An ambient-configuration loader that succeeds with `okClientset`. -/
def ambientOk : Except String Clientset := Except.ok okClientset

/-- An ambient-configuration loader that fails. -/
def ambientFail : Except String Clientset := Except.error "kubeconfig not found"

/-- Claim C1: for every job id, if acquiring the jobs client from the
Tracker's clientset fails, `JobState` returns the Undetermined state together
with a nil error — the client-acquisition error is swallowed, not returned. -/
theorem jobState_swallows_client_acquisition_error
    (DRMAA2State : BatchV1JobInterface → String → DrmaaJobState)
    (kt : KubernetesTracker) (jobid : String) (e : String)
    (h : getJobsClient kt.clientSet = Except.error e) :
    (KubernetesTracker.JobState DRMAA2State kt jobid).1 =
      (DrmaaJobState.Undetermined, "", none) := by
  unfold KubernetesTracker.JobState
  rw [h]

theorem jobState_swallows_client_acquisition_error_witness :
    (KubernetesTracker.JobState anyState failTracker "job-a").1 =
      (DrmaaJobState.Undetermined, "", none) :=
  jobState_swallows_client_acquisition_error anyState failTracker "job-a"
    "connection refused" rfl

/-- Claim C5: for every job id, timeout and list of target states, `Wait`
returns exactly the value of the shared helper's `WaitForState` applied to
the Tracker, the job id, the timeout and those states — with no additional
wrapping or retry. -/
theorem wait_is_waitForState
    (WaitForState :
      KubernetesTracker → String → Duration → List DrmaaJobState → Option String)
    (kt : KubernetesTracker) (jobid : String) (timeout : Duration)
    (states : List DrmaaJobState) :
    (KubernetesTracker.Wait WaitForState kt jobid timeout states).1 =
      WaitForState kt jobid timeout states := rfl

/-- Claim C6: for every Tracker state, `ListJobCategories` returns the empty
list of strings and a nil error; it never fails. -/
theorem listJobCategories_returns_empty_nil (kt : KubernetesTracker) :
    (kt.ListJobCategories).1 = ([], none) := rfl

/-- Claim C8: for every job template, begin, end and step, and any two values
of maxParallel, `AddArrayJob` returns the same result: the maxParallel
argument is discarded and never passed to the shared helper. -/
theorem addArrayJob_ignores_maxParallel
    (AddArrayJobAsSingleJobs :
      JobTemplate → KubernetesTracker → Int → Int → Int → String × Option String)
    (kt : KubernetesTracker) (jt : JobTemplate)
    (begin_ end_ step m₁ m₂ : Int) :
    KubernetesTracker.AddArrayJob AddArrayJobAsSingleJobs kt jt begin_ end_ step m₁ =
      KubernetesTracker.AddArrayJob AddArrayJobAsSingleJobs kt jt begin_ end_ step m₂ :=
  rfl

/-- Claim C9: for every job id and every Tracker state and state-mapping
behaviour, `JobState` returns a nil error and an empty substate string:
every failure inside the state lookup is absorbed into the returned state
value, and `JobState` never returns a non-nil error. -/
theorem jobState_never_errors
    (DRMAA2State : BatchV1JobInterface → String → DrmaaJobState)
    (kt : KubernetesTracker) (jobid : String) :
    ((KubernetesTracker.JobState DRMAA2State kt jobid).1).2 = ("", none) := by
  unfold KubernetesTracker.JobState
  cases getJobsClient kt.clientSet <;> rfl

/-- Claim C2: for every Tracker with session name S, `ListJobs` queries the
cluster with the label selector string `drmaa2jobsession=` followed by S as
the sole filter (the issued client-operation trace is exactly the client
acquisition followed by one List request carrying that selector), and on
success returns exactly the names of the workload items of the response list,
in order; if the client cannot be obtained or the list call errors, `ListJobs`
returns a nil id list and a non-nil error. -/
theorem listJobs_session_filter_and_errors (kt : KubernetesTracker) :
    (∀ e, getJobsClient kt.clientSet = Except.error e →
        (kt.ListJobs).1 = (none, some ("ListJobs: " ++ e))) ∧
    (∀ jc, getJobsClient kt.clientSet = Except.ok jc →
      (∀ jobsList,
          jc.list { LabelSelector := "drmaa2jobsession=" ++ kt.jobsession } =
            Except.ok jobsList →
          (kt.ListJobs).1 =
            (some (jobsList.Items.map (fun job => job.Name)), none) ∧
          (kt.ListJobs).2.1 =
            [ClusterOp.getClient,
              ClusterOp.list
                { LabelSelector := "drmaa2jobsession=" ++ kt.jobsession }]) ∧
      (∀ e, jc.list { LabelSelector := "drmaa2jobsession=" ++ kt.jobsession } =
            Except.error e →
          (kt.ListJobs).1 = (none, some ("listing jobs with client: " ++ e)))) := by
  refine ⟨fun e he => ?_, fun jc hjc => ⟨fun jobsList hl => ?_, fun e hl => ?_⟩⟩
  · unfold KubernetesTracker.ListJobs
    rw [he]
  · unfold KubernetesTracker.ListJobs
    simp only [hjc, hl]
    exact ⟨trivial, trivial⟩
  · unfold KubernetesTracker.ListJobs
    simp only [hjc, hl]

theorem listJobs_session_filter_and_errors_witness :
    (failTracker.ListJobs).1 = (none, some "ListJobs: connection refused") ∧
    (okTracker.ListJobs).1 = (some ["job-a", "job-b"], none) ∧
    (downTracker.ListJobs).1 =
      (none, some "listing jobs with client: connection reset") :=
  ⟨(listJobs_session_filter_and_errors failTracker).1 "connection refused" rfl,
    (((listJobs_session_filter_and_errors okTracker).2 sessJobsClient rfl).1
      { Items := [{ Name := "job-a" }, { Name := "job-b" }] } rfl).1,
    ((listJobs_session_filter_and_errors downTracker).2 downJobsClient rfl).2
      "connection reset" rfl⟩

/-- Claim C3: for every job template, `AddJob` converts the template together
with the Tracker's session name into a workload and creates that workload in
the cluster, returning the name of the created object as the job id; if
conversion fails it returns the empty string and an error carrying the
conversion-specific prefix; if the create call fails it returns the empty
string and a wrapped error. -/
theorem addJob_conversion_create_and_errors
    (convertJob : String → JobTemplate → Except String K8sJob)
    (kt : KubernetesTracker) (jt : JobTemplate) :
    (∀ e, convertJob kt.jobsession jt = Except.error e →
        (KubernetesTracker.AddJob convertJob kt jt).1 =
          ("", some ("converting job template into a k8s job: " ++ e))) ∧
    (∀ job jc j, convertJob kt.jobsession jt = Except.ok job →
        getJobsClient kt.clientSet = Except.ok jc →
        jc.create job = Except.ok j →
        (KubernetesTracker.AddJob convertJob kt jt).1 = (j.Name, none) ∧
        (KubernetesTracker.AddJob convertJob kt jt).2.1 =
          [ClusterOp.getClient, ClusterOp.create job]) ∧
    (∀ job jc e, convertJob kt.jobsession jt = Except.ok job →
        getJobsClient kt.clientSet = Except.ok jc →
        jc.create job = Except.error e →
        (KubernetesTracker.AddJob convertJob kt jt).1 =
          ("", some ("creating new job: " ++ e))) := by
  refine ⟨fun e hc => ?_, fun job jc j hc hg hcr => ?_,
    fun job jc e hc hg hcr => ?_⟩
  · unfold KubernetesTracker.AddJob
    rw [hc]
  · unfold KubernetesTracker.AddJob
    simp only [hc, hg, hcr]
    exact ⟨trivial, trivial⟩
  · unfold KubernetesTracker.AddJob
    simp only [hc, hg, hcr]

theorem addJob_conversion_create_and_errors_witness :
    (KubernetesTracker.AddJob convertFail okTracker { RemoteCommand := "echo" }).1 =
      ("", some "converting job template into a k8s job: no command specified") ∧
    (KubernetesTracker.AddJob convertOk okTracker { RemoteCommand := "echo" }).1 =
      ("echo-job", none) ∧
    (KubernetesTracker.AddJob convertOk downTracker { RemoteCommand := "echo" }).1 =
      ("", some "creating new job: connection reset") :=
  ⟨(addJob_conversion_create_and_errors convertFail okTracker
      { RemoteCommand := "echo" }).1 "no command specified" rfl,
    ((addJob_conversion_create_and_errors convertOk okTracker
      { RemoteCommand := "echo" }).2.1
      { Name := "echo-job", Labels := [("drmaa2jobsession", "sess")] }
      sessJobsClient
      { Name := "echo-job", Labels := [("drmaa2jobsession", "sess")] }
      rfl rfl rfl).1,
    (addJob_conversion_create_and_errors convertOk downTracker
      { RemoteCommand := "echo" }).2.2
      { Name := "echo-job", Labels := [("drmaa2jobsession", "sess")] }
      downJobsClient "connection reset" rfl rfl rfl⟩

/-- Claim C10: if converting the job template fails, `AddJob` returns before
acquiring the jobs client and before issuing any create call — the trace of
issued client operations is empty, so no workload is created in the cluster
on the conversion-error path — and the return value is the empty string with
the conversion error. -/
theorem addJob_conversion_error_before_cluster
    (convertJob : String → JobTemplate → Except String K8sJob)
    (kt : KubernetesTracker) (jt : JobTemplate) (e : String)
    (h : convertJob kt.jobsession jt = Except.error e) :
    (KubernetesTracker.AddJob convertJob kt jt).2.1 = [] ∧
    (KubernetesTracker.AddJob convertJob kt jt).1 =
      ("", some ("converting job template into a k8s job: " ++ e)) := by
  unfold KubernetesTracker.AddJob
  rw [h]
  exact ⟨rfl, rfl⟩

theorem addJob_conversion_error_before_cluster_witness :
    (KubernetesTracker.AddJob convertFail failTracker { RemoteCommand := "echo" }).2.1 =
      [] ∧
    (KubernetesTracker.AddJob convertFail failTracker { RemoteCommand := "echo" }).1 =
      ("", some "converting job template into a k8s job: no command specified") :=
  addJob_conversion_error_before_cluster convertFail failTracker
    { RemoteCommand := "echo" } "no command specified" rfl

/-- Claim C7: every Tracker operation leaves the Tracker's two fields — the
clientset handle and the session name — unchanged, for every behaviour of the
external helpers and the cluster: the Tracker holds no mutable local state
between calls. -/
theorem tracker_methods_leave_fields_unchanged
    (kt : KubernetesTracker)
    (convertJob : String → JobTemplate → Except String K8sJob)
    (AddArrayJobAsSingleJobs :
      JobTemplate → KubernetesTracker → Int → Int → Int → String × Option String)
    (ArrayJobID2GUIDs : String → Option (List String) × Option String)
    (DRMAA2State : BatchV1JobInterface → String → DrmaaJobState)
    (JobToJobInfo : BatchV1JobInterface → String → JobInfo × Option String)
    (getJobInterfaceAndJob :
      Clientset → String → Except String (BatchV1JobInterface × K8sJob))
    (jobStateChange : BatchV1JobInterface → K8sJob → String → Option String)
    (WaitForState :
      KubernetesTracker → String → Duration → List DrmaaJobState → Option String)
    (deleteJob : BatchV1JobInterface → K8sJob → Option String)
    (jt : JobTemplate) (begin_ end_ step maxParallel : Int)
    (id jobid action : String) (timeout : Duration)
    (states : List DrmaaJobState) :
    (kt.ListJobCategories).2 = kt ∧
    (kt.ListJobs).2.2 = kt ∧
    (KubernetesTracker.AddJob convertJob kt jt).2.2 = kt ∧
    (KubernetesTracker.AddArrayJob AddArrayJobAsSingleJobs kt jt
      begin_ end_ step maxParallel).2 = kt ∧
    (KubernetesTracker.ListArrayJobs ArrayJobID2GUIDs kt id).2 = kt ∧
    (KubernetesTracker.JobState DRMAA2State kt jobid).2 = kt ∧
    (KubernetesTracker.JobInfo JobToJobInfo kt jobid).2 = kt ∧
    (KubernetesTracker.JobControl getJobInterfaceAndJob jobStateChange
      kt jobid action).2 = kt ∧
    (KubernetesTracker.Wait WaitForState kt jobid timeout states).2 = kt ∧
    (KubernetesTracker.DeleteJob getJobInterfaceAndJob deleteJob kt jobid).2 =
      kt := by
  refine ⟨rfl, ?_, ?_, rfl, rfl, ?_, ?_, ?_, rfl, ?_⟩
  · unfold KubernetesTracker.ListJobs
    split
    · rfl
    · split <;> rfl
  · unfold KubernetesTracker.AddJob
    split
    · rfl
    · split
      · rfl
      · split <;> rfl
  · unfold KubernetesTracker.JobState
    split <;> rfl
  · unfold KubernetesTracker.JobInfo
    split <;> rfl
  · unfold KubernetesTracker.JobControl
    split <;> rfl
  · unfold KubernetesTracker.DeleteJob
    split <;> rfl

/-- Claim C4 counterexample: the value `InitParams.clientset none` models a
nil `*kubernetes.Clientset` pointer stored in the init-parameter interface
value: it is non-nil as an interface value and its dynamic type IS
`*kubernetes.Clientset` (the type assertion succeeds, yielding the nil
pointer), yet when ambient client construction fails, the allocator's `New`
returns a non-nil error — contradicting the claim that for non-nil
initParams an error is returned exactly when the value is not a
`*kubernetes.Clientset`. -/
theorem allocatorNew_nil_pointer_counterexample :
    (InitParams.clientset none).isNil = false ∧
    (InitParams.clientset none).isClientsetType = true ∧
    allocator.New ambientFail NewAllocator "sess" (InitParams.clientset none) =
      Except.error "kubeconfig not found" :=
  ⟨rfl, rfl, rfl⟩

/-- Claim C4 (amended): for every session name and initParams value: if
initParams is non-nil and not a `*kubernetes.Clientset`, the allocator's
`New` returns the fixed type error; if initParams is a non-nil
`*kubernetes.Clientset`, it returns (with no error) a Tracker whose session
field equals the given session name and whose clientset is the supplied one;
if initParams is nil — or is a nil `*kubernetes.Clientset` pointer, on which
the type assertion succeeds and yields nil — a Tracker carrying a newly built
ambient clientset and the session name is returned when ambient construction
succeeds, and the construction error is returned when it fails. -/
theorem allocatorNew_cases (NewClientSet : Except String Clientset)
    (s : String) (p : InitParams) :
    (p.isNil = false → p.isClientsetType = false →
      allocator.New NewClientSet NewAllocator s p =
        Except.error "jobTrackerInitParams is not of type *kubernetes.Clientset") ∧
    (∀ cs, p = InitParams.clientset (some cs) →
      allocator.New NewClientSet NewAllocator s p =
        Except.ok { clientSet := cs, jobsession := s }) ∧
    ((p = InitParams.nil ∨ p = InitParams.clientset none) →
      (∀ built, NewClientSet = Except.ok built →
        allocator.New NewClientSet NewAllocator s p =
          Except.ok { clientSet := built, jobsession := s }) ∧
      (∀ err, NewClientSet = Except.error err →
        allocator.New NewClientSet NewAllocator s p = Except.error err)) := by
  refine ⟨?_, ?_, ?_⟩
  · intro hnil htype
    cases p with
    | nil => simp [InitParams.isNil] at hnil
    | clientset cs => simp [InitParams.isClientsetType] at htype
    | other tag => rfl
  · intro cs hp
    subst hp
    rfl
  · intro hp
    constructor
    · intro built hb
      rcases hp with h | h <;> subst h <;>
        simp [allocator.New, kubernetestracker.New, hb]
    · intro err he
      rcases hp with h | h <;> subst h <;>
        simp [allocator.New, kubernetestracker.New, he]

theorem allocatorNew_cases_witness :
    allocator.New ambientOk NewAllocator "sess" (InitParams.other "int") =
      Except.error "jobTrackerInitParams is not of type *kubernetes.Clientset" ∧
    allocator.New ambientOk NewAllocator "sess"
        (InitParams.clientset (some okClientset)) =
      Except.ok { clientSet := okClientset, jobsession := "sess" } ∧
    allocator.New ambientOk NewAllocator "sess" InitParams.nil =
      Except.ok { clientSet := okClientset, jobsession := "sess" } ∧
    allocator.New ambientFail NewAllocator "sess" InitParams.nil =
      Except.error "kubeconfig not found" :=
  ⟨(allocatorNew_cases ambientOk "sess" (InitParams.other "int")).1 rfl rfl,
    (allocatorNew_cases ambientOk "sess"
      (InitParams.clientset (some okClientset))).2.1 okClientset rfl,
    ((allocatorNew_cases ambientOk "sess" InitParams.nil).2.2 (Or.inl rfl)).1
      okClientset rfl,
    ((allocatorNew_cases ambientFail "sess" InitParams.nil).2.2 (Or.inl rfl)).2
      "kubeconfig not found" rfl⟩
